import Mathlib

/-!
Shallow embedding of the ArchAssistant analysis core (Python) in Lean 4,
together with theorems settling the frozen claims about its specification.

Modules embedded (from the repository sources):
  * `analyzer/model.py`      — Component / Dependency / Graph value types
  * `architecture/rules.py`  — layer rule engine and purity score
  * `core/flow.py`           — flow-path extractor
  * `analysis/smells.py`     — repository-leak detector, aggregate-group heuristic
  * `analysis/bounded_context.py` — bounded-context analyzer
  * `analysis/event_readiness.py` — use-case event-readiness scorer
  * `analysis/target_architecture.py` — target spec records, package matching
  * `analysis/use_case_report.py` — report record types (inputs of the planner)
  * `analysis/migration_planner.py` — migration plan builder and phase grouping

Python `dict[str, V]` lookup built by insertion (`{x.id: x for x in xs}`,
later entries win) is modelled by searching the reversed list; Python string
lists keep their order; Python `set` membership is modelled by list
membership after first-occurrence deduplication.
-/

set_option linter.unusedVariables false

namespace ArchAssistant

/-- Python dict comprehension lookup: later entries overwrite earlier ones. -/
def dictLookup {α : Type} (key : α → String) (xs : List α) (k : String) : Option α :=
  xs.reverse.find? (fun x => key x == k)

/-- Python set-guarded append loop: keep the first occurrence of each element. -/
def dedupFirstAux {α : Type} [DecidableEq α] (seen : List α) : List α → List α
  | [] => []
  | a :: rest =>
    if a ∈ seen then dedupFirstAux seen rest else a :: dedupFirstAux (a :: seen) rest

/-- Keep the first occurrence of each element. -/
def dedupFirst {α : Type} [DecidableEq α] (l : List α) : List α := dedupFirstAux [] l

/-- Python `needle in hay` substring test. -/
def containsSubstr (hay needle : String) : Bool :=
  hay.data.tails.any (fun t => needle.data.isPrefixOf t)

/-- Python `str.lower()` (ASCII case folding suffices for the repository data). -/
def lowerStr (s : String) : String := ⟨s.data.map Char.toLower⟩

/-- Python `str.split(sep)` on the character list (empty pieces preserved,
`"".split(sep) == [""]`). -/
def pySplitChars (sep : Char) : List Char → List (List Char)
  | [] => [[]]
  | c :: rest =>
    let r := pySplitChars sep rest
    if c = sep then [] :: r
    else
      match r with
      | h :: t => (c :: h) :: t
      | [] => [[c]]

/-- Python `str.split(sep)` for a one-character separator. -/
def pySplit (s : String) (sep : Char) : List String :=
  (pySplitChars sep s.data).map (fun cs => ⟨cs⟩)

/-- Python `sep.join(parts)`. -/
def joinWith (sep : String) : List String → String
  | [] => ""
  | [x] => x
  | x :: rest => x ++ sep ++ joinWith sep rest

/-- Python `str.startswith`. -/
def startsWithStr (s pre : String) : Bool := pre.data.isPrefixOf s.data

/-- Python `str.endswith`. -/
def endsWithStr (s suf : String) : Bool := suf.data.reverse.isPrefixOf s.data.reverse

/-- Python `s[:-n]`: drop the last `n` characters. -/
def dropRightStr (s : String) (n : Nat) : String := ⟨s.data.take (s.data.length - n)⟩

/-- Code-point comparison of character lists (Python string `<=`). -/
def charListLe : List Char → List Char → Bool
  | [], _ => true
  | _ :: _, [] => false
  | a :: as, b :: bs =>
    if a.toNat < b.toNat then true
    else if b.toNat < a.toNat then false
    else charListLe as bs

/-- Python string `<=` by code points. -/
def strLe (a b : String) : Bool := charListLe a.data b.data

/-! ## Data model (`analyzer/model.py`) -/

/-- `Component` dataclass. The free-form `metrics` map is read only through the
smell detectors' metrics provider, which no settled claim exercises, so it is
not carried here. -/
structure Component where
  id : String
  name : String
  path : String
  package : String
  layer : String
  annotations : List String := []
  imports : List String := []
deriving DecidableEq, Repr

/-- `Dependency` dataclass. -/
structure Dependency where
  source_id : String
  target_id : String
  kind : String
deriving DecidableEq, Repr

/-- `Graph` dataclass. -/
structure Graph where
  components : List Component := []
  dependencies : List Dependency := []
deriving DecidableEq, Repr

/-! ## Rule engine (`architecture/rules.py`) -/

/-- `Layer` enum. -/
inductive Layer where
  | domain
  | application
  | inbound_adapter
  | inbound_port
  | outbound_port
  | outbound_adapter
  | unknown
deriving DecidableEq, Repr

/-- `map_layer`: first enum member whose value equals the string, else UNKNOWN. -/
def map_layer (value : String) : Layer :=
  if value = "domain" then .domain
  else if value = "application" then .application
  else if value = "inbound_adapter" then .inbound_adapter
  else if value = "inbound_port" then .inbound_port
  else if value = "outbound_port" then .outbound_port
  else if value = "outbound_adapter" then .outbound_adapter
  else if value = "unknown" then .unknown
  else .unknown

/-- `ALLOWED_DEPENDENCIES` table (sets modelled as membership lists). -/
def ALLOWED_DEPENDENCIES : Layer → List Layer
  | .domain => [.domain, .unknown]
  | .application => [.application, .domain, .inbound_port, .outbound_port, .unknown]
  | .inbound_adapter => [.inbound_port, .application, .unknown]
  | .inbound_port => [.application, .domain, .unknown]
  | .outbound_port => [.domain, .application, .unknown]
  | .outbound_adapter => [.outbound_port, .unknown]
  | .unknown => [.unknown, .domain, .application, .inbound_port, .outbound_port,
                 .inbound_adapter, .outbound_adapter]

/-- `RuleViolation` dataclass. -/
structure RuleViolation where
  rule_id : String
  severity : String
  message : String
  source_component_id : String
  target_component_id : Option String
  source_layer : Layer
  target_layer : Option Layer
  dependency_kind : String
deriving DecidableEq, Repr

/-- `SEVERITY_WEIGHT` dict with `.get(s, 1)` default. -/
def SEVERITY_WEIGHT (severity : String) : Int :=
  if severity = "info" then 1
  else if severity = "warning" then 3
  else if severity = "error" then 7
  else 1

/-- `EXTRA_RULE_WEIGHT` dict with `.get(r, 0)` default. -/
def EXTRA_RULE_WEIGHT (rule_id : String) : Int :=
  if rule_id = "DOMAIN_DEPENDS_ON_ADAPTER" then 5
  else if rule_id = "APPLICATION_DEPENDS_ON_ADAPTER" then 4
  else if rule_id = "ADAPTER_DIRECTLY_DEPENDS_ON_DOMAIN" then 4
  else 0

/-- Violations appended for one dependency inside the loop of
`analyze_layer_rules` (four independent checks, emission order preserved). -/
def violationsForDep (components : List Component) (dep : Dependency) :
    List RuleViolation :=
  match dictLookup Component.id components dep.source_id,
        dictLookup Component.id components dep.target_id with
  | some source, some target =>
    let source_layer := map_layer source.layer
    let target_layer := map_layer target.layer
    let allowed := ALLOWED_DEPENDENCIES source_layer
    (if target_layer ∉ allowed then
      [{ rule_id := "FORBIDDEN_LAYER_DEPENDENCY"
         severity := "warning"
         message := "Layer rule violation: \x27" ++ source.name ++ "\x27 (" ++ source.layer
           ++ ") depends on \x27" ++ target.name ++ "\x27 (" ++ target.layer ++ ")."
         source_component_id := source.id
         target_component_id := some target.id
         source_layer := source_layer
         target_layer := some target_layer
         dependency_kind := dep.kind }]
     else []) ++
    (if source_layer = .domain ∧
        (target_layer = .inbound_adapter ∨ target_layer = .outbound_adapter) then
      [{ rule_id := "DOMAIN_DEPENDS_ON_ADAPTER"
         severity := "error"
         message := "Domain layer component \x27" ++ source.name ++ "\x27 depends on adapter \x27"
           ++ target.name ++ "\x27. Domain must not depend on any adapter."
         source_component_id := source.id
         target_component_id := some target.id
         source_layer := source_layer
         target_layer := some target_layer
         dependency_kind := dep.kind }]
     else []) ++
    (if source_layer = .application ∧
        (target_layer = .inbound_adapter ∨ target_layer = .outbound_adapter) then
      [{ rule_id := "APPLICATION_DEPENDS_ON_ADAPTER"
         severity := "warning"
         message := "Application component \x27" ++ source.name ++ "\x27 depends on adapter \x27"
           ++ target.name ++ "\x27. Prefer ports instead."
         source_component_id := source.id
         target_component_id := some target.id
         source_layer := source_layer
         target_layer := some target_layer
         dependency_kind := dep.kind }]
     else []) ++
    (if (source_layer = .inbound_adapter ∨ source_layer = .outbound_adapter) ∧
        target_layer = .domain then
      [{ rule_id := "ADAPTER_DIRECTLY_DEPENDS_ON_DOMAIN"
         severity := "warning"
         message := "Adapter \x27" ++ source.name ++ "\x27 directly depends on domain \x27"
           ++ target.name ++ "\x27. Prefer ports/use-cases."
         source_component_id := source.id
         target_component_id := some target.id
         source_layer := source_layer
         target_layer := some target_layer
         dependency_kind := dep.kind }]
     else [])
  | _, _ => []

/-- `analyze_layer_rules`. -/
def analyze_layer_rules (graph : Graph) : List RuleViolation :=
  graph.dependencies.flatMap (violationsForDep graph.components)

/-- `score_project`: start at 100, subtract weights, clamp at 0 at the end. -/
def score_project (violations : List RuleViolation) : Int :=
  max 0 (violations.foldl
    (fun score v => score - (SEVERITY_WEIGHT v.severity + EXTRA_RULE_WEIGHT v.rule_id)) 100)

/-- Total weight subtracted by `score_project`'s loop. -/
def violationWeight (v : RuleViolation) : Int :=
  SEVERITY_WEIGHT v.severity + EXTRA_RULE_WEIGHT v.rule_id

theorem score_foldl_eq_sub (violations : List RuleViolation) (init : Int) :
    violations.foldl (fun score v => score - (SEVERITY_WEIGHT v.severity + EXTRA_RULE_WEIGHT v.rule_id)) init
      = init - (violations.map violationWeight).sum := by
  induction violations generalizing init with
  | nil => simp
  | cons v rest ih =>
    simp only [List.foldl_cons, List.map_cons, List.sum_cons, ih, violationWeight]
    ring

theorem severity_weight_pos (s : String) : 1 ≤ SEVERITY_WEIGHT s := by
  unfold SEVERITY_WEIGHT
  repeat' split
  all_goals omega

theorem extra_rule_weight_nonneg (r : String) : 0 ≤ EXTRA_RULE_WEIGHT r := by
  unfold EXTRA_RULE_WEIGHT
  repeat' split
  all_goals omega

theorem violationWeight_pos (v : RuleViolation) : 1 ≤ violationWeight v := by
  have h1 := severity_weight_pos v.severity
  have h2 := extra_rule_weight_nonneg v.rule_id
  unfold violationWeight
  omega

theorem weights_sum_nonneg (violations : List RuleViolation) :
    0 ≤ (violations.map violationWeight).sum := by
  induction violations with
  | nil => simp
  | cons v rest ih =>
    have := violationWeight_pos v
    simp only [List.map_cons, List.sum_cons]
    omega

theorem score_project_eq (violations : List RuleViolation) :
    score_project violations = max 0 (100 - (violations.map violationWeight).sum) := by
  unfold score_project
  rw [score_foldl_eq_sub]

theorem score_project_nonneg (violations : List RuleViolation) :
    0 ≤ score_project violations := by
  rw [score_project_eq]; exact le_max_left _ _

theorem score_project_le_100 (violations : List RuleViolation) :
    score_project violations ≤ 100 := by
  rw [score_project_eq]
  have := weights_sum_nonneg violations
  omega

/-! ## Flow extractor (`core/flow.py`) -/

/-- `FlowResult` dataclass. -/
structure FlowResult where
  nodes : List Component
  edges : List Dependency
deriving DecidableEq, Repr

/-- Outgoing adjacency bucket built by `_build_adjacency` (keeps edge order). -/
def outgoingOf (dependencies : List Dependency) (cid : String) : List Dependency :=
  dependencies.filter (fun dep => dep.source_id == cid)

/-- Incoming adjacency bucket built by `_build_adjacency` (keeps edge order). -/
def incomingOf (dependencies : List Dependency) (cid : String) : List Dependency :=
  dependencies.filter (fun dep => dep.target_id == cid)

/-- Deduplicate by component id keeping first occurrences (the `seen` loop at
the end of `get_flow_neighbors`). -/
def dedupByIdAux (seen : List String) : List Component → List Component
  | [] => []
  | c :: rest =>
    if c.id ∈ seen then dedupByIdAux seen rest
    else c :: dedupByIdAux (c.id :: seen) rest

/-- Deduplicate components by id keeping first occurrences. -/
def dedupById (l : List Component) : List Component := dedupByIdAux [] l

/-- `get_flow_neighbors`: layer-specific outgoing flow candidates. -/
def get_flow_neighbors (component : Component) (components : List Component)
    (dependencies : List Dependency) : List Component :=
  let by_id := dictLookup Component.id components
  let result :=
    (if component.layer = "inbound_adapter" then
      (outgoingOf dependencies component.id).filterMap (fun dep =>
        match by_id dep.target_id with
        | some target => if target.layer = "inbound_port" then some target else none
        | none => none)
     else []) ++
    (if component.layer = "application" then
      (outgoingOf dependencies component.id).filterMap (fun dep =>
        match by_id dep.target_id with
        | some target =>
          if target.layer = "domain" ∨ target.layer = "outbound_port" then some target
          else none
        | none => none)
     else []) ++
    (if component.layer = "inbound_port" then
      (incomingOf dependencies component.id).filterMap (fun dep =>
        match by_id dep.source_id with
        | some source =>
          if source.layer = "application" ∧ (dep.kind = "implements" ∨ dep.kind = "import")
          then some source else none
        | none => none)
     else []) ++
    (if component.layer = "domain" then
      (incomingOf dependencies component.id).flatMap (fun dep =>
        match by_id dep.source_id with
        | some source =>
          if source.layer = "application" then
            (outgoingOf dependencies source.id).filterMap (fun out_dep =>
              match by_id out_dep.target_id with
              | some target =>
                if target.layer = "outbound_port" then some target else none
              | none => none)
          else []
        | none => [])
     else []) ++
    (if component.layer = "outbound_port" then
      (incomingOf dependencies component.id).filterMap (fun dep =>
        match by_id dep.source_id with
        | some source =>
          if source.layer = "outbound_adapter" ∧ (dep.kind = "implements" ∨ dep.kind = "import")
          then some source else none
        | none => none)
     else [])
  dedupById result

/-- The recursive `dfs` closure of `compute_flow_paths`, with the mutable
`path`/`visited` state made explicit. -/
def dfs (graph : Graph) (maxDepth : Nat) (current_id : String)
    (path : List String) (visited : List String) (depth : Nat) : List (List String) :=
  if h : depth > maxDepth then [path]
  else
    match dictLookup Component.id graph.components current_id with
    | none => []
    | some current =>
      let path2 := path ++ [current_id]
      let visited2 := current_id :: visited
      let neighbors := get_flow_neighbors current graph.components graph.dependencies
      if neighbors = [] then [path2]
      else (neighbors.filter (fun n => !(visited2.contains n.id))).flatMap
        (fun neighbor => dfs graph maxDepth neighbor.id path2 visited2 (depth + 1))
termination_by maxDepth + 1 - depth
decreasing_by omega

/-- `compute_flow_paths` (default `max_depth=12` supplied at call sites). -/
def compute_flow_paths (graph : Graph) (start_id : String) (maxDepth : Nat) :
    List (List String) :=
  dfs graph maxDepth start_id [] [] 0

/-- `_score_path`: (has outbound port/adapter on path, path length). -/
def scorePath (components : List Component) (path : List String) : Nat × Nat :=
  let layers := (path.filterMap (dictLookup Component.id components)).map Component.layer
  let has_outbound := layers.any (fun l => l = "outbound_port" ∨ l = "outbound_adapter")
  ((if has_outbound then 1 else 0), path.length)

/-- Python tuple `<` on the path-score pairs. -/
def scoreLt (p q : Nat × Nat) : Bool :=
  p.1 < q.1 ∨ (p.1 = q.1 ∧ p.2 < q.2)

/-- Python `max(paths, key=...)`: first element with maximal key. -/
def maxByScore (components : List Component) (first : List String)
    (rest : List (List String)) : List String :=
  rest.foldl (fun best p =>
    if scoreLt (scorePath components best) (scorePath components p) then p else best) first

/-- `_edge_for` over the `_edge_map` dict: forward match first, else reversed. -/
def edgeFor (dependencies : List Dependency) (source_id target_id : String) :
    Option Dependency :=
  match dependencies.reverse.find? (fun d => d.source_id == source_id && d.target_id == target_id) with
  | some d => some d
  | none => dependencies.reverse.find? (fun d => d.source_id == target_id && d.target_id == source_id)

/-- `compute_flow_path`: pick the best enumerated path and resolve its
components and connecting edges. -/
def compute_flow_path (graph : Graph) (start_id : String) (maxDepth : Nat := 12) :
    FlowResult :=
  let paths := compute_flow_paths graph start_id maxDepth
  match paths with
  | [] => { nodes := [], edges := [] }
  | first :: rest =>
    let best_path := maxByScore graph.components first rest
    let path_nodes := best_path.filterMap (dictLookup Component.id graph.components)
    let path_edges := (best_path.zip best_path.tail).filterMap
      (fun p => edgeFor graph.dependencies p.1 p.2)
    { nodes := path_nodes, edges := path_edges }

/-! ## Smell detector (`analysis/smells.py`) -/

/-- `SmellType` enum. -/
inductive SmellType where
  | anemic_domain
  | god_service
  | repository_leak
  | cross_aggregate_coupling
  | other
deriving DecidableEq, Repr

/-- `SmellSeverity` enum. -/
inductive SmellSeverity where
  | info
  | warning
  | error
deriving DecidableEq, Repr

/-- `ComponentSmell` dataclass (metrics values are Python floats, here ℚ). -/
structure ComponentSmell where
  smell_type : SmellType
  severity : SmellSeverity
  component_id : String
  component_name : String
  layer : String
  description : String
  hints : List String
  metrics : List (String × Rat)
deriving DecidableEq, Repr

/-- The persistence/ORM marker substrings of `detect_repository_leaks`. -/
def repoPatterns : List String :=
  ["javax.persistence", "jakarta.persistence", "org.springframework.data.jpa",
   "entitymanager", "jparepository", "hibernate"]

/-- `has_repo_import` of `detect_repository_leaks`: some lowered import or
annotation contains a marker substring. -/
def hasRepoImport (comp : Component) : Bool :=
  ((comp.imports.map lowerStr) ++ (comp.annotations.map lowerStr)).any
    (fun value => repoPatterns.any (fun pattern => containsSubstr value pattern))

/-- The smell record appended for a leaking domain component. -/
def domainLeakSmell (comp : Component) : ComponentSmell :=
  { smell_type := .repository_leak
    severity := .warning
    component_id := comp.id
    component_name := comp.name
    layer := comp.layer
    description := "Domain component \x27" ++ comp.name ++ "\x27 imports persistence/ORM APIs. "
      ++ "Domain layer should not depend on repository/ORM details."
    hints := ["Move persistence annotations and ORM-specific logic to outbound adapters.",
              "Keep domain entities as pure as possible."]
    metrics := [("repo_imports", 1)] }

/-- The smell record appended for a leaking application/inbound-adapter component. -/
def adapterLeakSmell (comp : Component) : ComponentSmell :=
  { smell_type := .repository_leak
    severity := .info
    component_id := comp.id
    component_name := comp.name
    layer := comp.layer
    description := "Component \x27" ++ comp.name ++ "\x27 uses repository/ORM-specific APIs directly. "
      ++ "Consider wrapping them behind ports or repository interfaces."
    hints := ["Introduce an outbound port or repository interface in the domain/application layer.",
              "Let outbound adapters handle ORM-specific code."]
    metrics := [("repo_imports", 1)] }

/-- Smells appended for one component inside the `detect_repository_leaks` loop. -/
def repositoryLeaksFor (comp : Component) : List ComponentSmell :=
  (if comp.layer = "domain" ∧ hasRepoImport comp then [domainLeakSmell comp] else []) ++
  (if (comp.layer = "application" ∨ comp.layer = "inbound_adapter") ∧ hasRepoImport comp then
    [adapterLeakSmell comp]
   else [])

/-- `detect_repository_leaks`. -/
def detect_repository_leaks (graph : Graph) : List ComponentSmell :=
  graph.components.flatMap repositoryLeaksFor

/-- `guess_aggregate_group` (aggregate-group package heuristic of the
cross-aggregate-coupling detector). -/
def guess_aggregate_group (component : Component) : String :=
  let pkg := component.package
  let parts := pySplit pkg '.'
  if parts.length ≥ 3 then joinWith "." (parts.take 3)
  else if parts.length ≥ 2 then joinWith "." (parts.take 2)
  else if pkg = "" then component.name else pkg

/-! ## Bounded context analyzer (`analysis/bounded_context.py`) -/

/-- `BcRelationType` enum. -/
inductive BcRelationType where
  | upstream
  | downstream
  | partnership
  | shared_kernel
  | customer_supplier
  | generic_subdomain
  | unknown
deriving DecidableEq, Repr

/-- `BoundedContext` dataclass (`layers_present` set kept as a deduplicated
membership list). -/
structure BoundedContext where
  id : String
  name : String
  package_prefixes : List String
  component_ids : List String
  layers_present : List String
  is_pure_hexagon : Bool
  hexagon_score : Rat
deriving DecidableEq, Repr

/-- `BcRelation` dataclass. -/
structure BcRelation where
  source_bc_id : String
  target_bc_id : String
  relation_type : BcRelationType
  dependency_count : Nat
  bidirectional : Bool
  notes : String
deriving DecidableEq, Repr

/-- `BoundedContextAnalysisResult` dataclass (the `contexts` dict keeps its
insertion order: sorted prefixes). -/
structure BoundedContextAnalysisResult where
  contexts : List BoundedContext
  relations : List BcRelation
deriving Repr

/-- `extract_bc_prefix` (bounded-context package-prefix heuristic). -/
def extract_bc_prefix (package : String) : String :=
  let parts := pySplit package '.'
  if parts.length ≥ 3 then joinWith "." (parts.take 3)
  else if parts.length ≥ 2 then joinWith "." (parts.take 2)
  else package

/-- `RuleAnalysisSummary` named tuple (the per-rule / per-layer-pair count
dicts as association lists). -/
structure RuleAnalysisSummary where
  score : Int
  total_components : Nat
  total_dependencies : Nat
  total_violations : Nat
  violations_by_rule : List (String × Nat)
  violations_by_layer_pair : List ((Layer × Layer) × Nat)
deriving Repr

/-- Python `dict[k] = dict.get(k, 0) + 1` on an association list (first
occurrence updated in place, new keys appended). -/
def bumpCount {κ : Type} [DecidableEq κ] (counts : List (κ × Nat)) (k : κ) :
    List (κ × Nat) :=
  match counts with
  | [] => [(k, 1)]
  | (k2, n) :: rest => if k2 = k then (k2, n + 1) :: rest else (k2, n) :: bumpCount rest k

/-- `run_rule_analysis`. -/
def run_rule_analysis (graph : Graph) : List RuleViolation × RuleAnalysisSummary :=
  let violations := analyze_layer_rules graph
  let by_rule := violations.foldl (fun acc v => bumpCount acc v.rule_id) []
  let by_pair := violations.foldl (fun acc v =>
    match v.target_layer with
    | some tl => bumpCount acc (v.source_layer, tl)
    | none => acc) []
  (violations,
   { score := score_project violations
     total_components := graph.components.length
     total_dependencies := graph.dependencies.length
     total_violations := violations.length
     violations_by_rule := by_rule
     violations_by_layer_pair := by_pair })

/-- `_compute_hexagon_score`: rule score of the induced subgraph, normalized. -/
def compute_hexagon_score (graph : Graph) (component_ids : List String) : Rat :=
  let components := graph.components.filter (fun c => component_ids.contains c.id)
  let dependencies := graph.dependencies.filter (fun dep =>
    component_ids.contains dep.source_id && component_ids.contains dep.target_id)
  let sub_graph : Graph := { components := components, dependencies := dependencies }
  let summary := (run_rule_analysis sub_graph).2
  if summary.total_components ≠ 0 then (summary.score : Rat) / 100 else 0

/-- Insertion sort on strings (Python `sorted` over the distinct prefixes;
the keys are distinct, so any comparison sort yields the same list). -/
def insertSorted (s : String) : List String → List String
  | [] => [s]
  | t :: rest => if strLe s t then s :: t :: rest else t :: insertSorted s rest

/-- Sort a list of strings ascending. -/
def sortStrings (l : List String) : List String :=
  l.foldr insertSorted []

/-- `infer_relation_type`. -/
def infer_relation_type (forward_count backward_count : Nat) : BcRelationType :=
  if forward_count > 0 ∧ backward_count = 0 then .downstream
  else if forward_count > 0 ∧ backward_count > 0 then .partnership
  else .unknown

/-- The `component_to_bc` dict lookup (later contexts overwrite earlier ones). -/
def componentToBc (contexts : List BoundedContext) (cid : String) : Option String :=
  (contexts.reverse.find? (fun bc => bc.component_ids.contains cid)).map BoundedContext.id

/-- The loop over `edge_count.items()` guarded by `seen_pairs`. -/
def buildRelations (contexts : List BoundedContext)
    (count : String × String → Nat) :
    List (String × String) → List (String × String) → List BcRelation
  | [], _ => []
  | (src, tgt) :: rest, seen =>
    if (src, tgt) ∈ seen then buildRelations contexts count rest seen
    else
      let cnt := count (src, tgt)
      let reverse_count := count (tgt, src)
      let bidir := reverse_count > 0
      let src_name := ((dictLookup BoundedContext.id contexts src).map BoundedContext.name).getD ""
      let tgt_name := ((dictLookup BoundedContext.id contexts tgt).map BoundedContext.name).getD ""
      let notes := src_name ++ " -> " ++ tgt_name ++ ": " ++ toString cnt ++ " deps"
        ++ (if bidir then ", reverse: " ++ toString reverse_count else "")
      { source_bc_id := src
        target_bc_id := tgt
        relation_type := infer_relation_type cnt reverse_count
        dependency_count := cnt
        bidirectional := bidir
        notes := notes } ::
        buildRelations contexts count rest ((src, tgt) :: (tgt, src) :: seen)

/-- `analyze_bounded_contexts`. -/
def analyze_bounded_contexts (graph : Graph) : BoundedContextAnalysisResult :=
  let prefixes := sortStrings (dedupFirst (graph.components.map
    (fun c => extract_bc_prefix c.package)))
  let contexts : List BoundedContext := prefixes.enum.map (fun p =>
    let idx := p.1
    let pref := p.2
    let comps := graph.components.filter (fun c => extract_bc_prefix c.package == pref)
    let comp_ids := comps.map Component.id
    let score := compute_hexagon_score graph comp_ids
    { id := "bc_" ++ toString idx
      name := if pref = "" then "unknown" else pref
      package_prefixes := [pref]
      component_ids := comp_ids
      layers_present := dedupFirst (comps.map Component.layer)
      is_pure_hexagon := score ≥ (8 : Rat) / 10
      hexagon_score := score })
  let cross_pairs := graph.dependencies.filterMap (fun dep =>
    match componentToBc contexts dep.source_id, componentToBc contexts dep.target_id with
    | some src_bc, some tgt_bc =>
      if src_bc = "" ∨ tgt_bc = "" ∨ src_bc = tgt_bc then none else some (src_bc, tgt_bc)
    | _, _ => none)
  let keys := dedupFirst cross_pairs
  let relations := buildRelations contexts (fun key => cross_pairs.count key) keys []
  { contexts := contexts, relations := relations }

/-! ## Event readiness scorer (`analysis/event_readiness.py`) -/

/-- `UseCaseEventReadinessMetrics` dataclass (Python ints as ℤ, the float
coupling score as ℚ). -/
structure UseCaseEventReadinessMetrics where
  use_case_id : String
  use_case_name : String
  entry_layer : String
  path_length : Int
  num_sync_calls : Int
  num_external_systems : Int
  num_outbound_ports : Int
  num_domain_entities_touched : Int
  num_aggregates_touched : Int
  num_cross_aggregate_updates : Int
  num_bounded_contexts : Int
  has_compensation_logic_hint : Bool
  sync_chain_depth : Int
  rule_violations_on_path : Int
  approximate_coupling_score : Rat
deriving Repr

/-- `UseCaseEventReadinessScore` dataclass (the presentation-only `summary`
string, a float-formatted digest of the metrics, is not carried here). -/
structure UseCaseEventReadinessScore where
  use_case_id : String
  score : Int
  level : String
deriving Repr

/-- Python `round` (banker's rounding: round half to even). -/
def pyRound (q : Rat) : Int :=
  let n := ⌊q⌋
  let frac := q - n
  if frac < 1 / 2 then n
  else if frac > 1 / 2 then n + 1
  else if Even n then n else n + 1

/-- `score_use_case_event_readiness`. -/
def score_use_case_event_readiness (metrics : UseCaseEventReadinessMetrics) :
    UseCaseEventReadinessScore :=
  let score0 : Int :=
    (if metrics.path_length ≥ 4 then 10 else 0) +
    (if metrics.num_external_systems ≥ 2 then 20 else 0) +
    (if metrics.num_outbound_ports ≥ 2 then 10 else 0) +
    (if metrics.num_bounded_contexts ≥ 2 then 20 else 0) +
    (if metrics.num_cross_aggregate_updates ≥ 1 then 15 else 0) +
    (if metrics.has_compensation_logic_hint then 10 else 0) +
    pyRound (metrics.approximate_coupling_score * 25)
  let score1 := if metrics.rule_violations_on_path = 0 then score0 - 10 else score0
  let score := max 0 (min 100 score1)
  let level := if score ≥ 70 then "high" else if score ≥ 40 then "medium" else "low"
  { use_case_id := metrics.use_case_id, score := score, level := level }

/-- `UseCaseEventRefactoringSuggestion` dataclass. -/
structure UseCaseEventRefactoringSuggestion where
  use_case_id : String
  suggestion_type : String
  title : String
  description : String
  suggested_event_names : List String
  important_components : List String
deriving Repr

/-- `ProjectEventReadinessSummary` dataclass. -/
structure ProjectEventReadinessSummary where
  total_use_cases : Nat
  avg_score : Rat
  high_candidate_count : Nat
  medium_candidate_count : Nat
  low_candidate_count : Nat
  scores_by_use_case : List UseCaseEventReadinessScore
  top_candidates : List UseCaseEventReadinessScore
deriving Repr

/-- `EventReadinessAnalysisResult` dataclass (per-use-case dicts as
association lists in insertion order). -/
structure EventReadinessAnalysisResult where
  per_use_case_metrics : List (String × UseCaseEventReadinessMetrics)
  per_use_case_scores : List (String × UseCaseEventReadinessScore)
  per_use_case_suggestions : List (String × List UseCaseEventRefactoringSuggestion)
  project_summary : ProjectEventReadinessSummary
deriving Repr

/-! ## Target architecture spec (`analysis/target_architecture.py`) -/

/-- `TargetUseCaseBlueprint` dataclass. -/
structure TargetUseCaseBlueprint where
  id : String
  name : String
  bounded_context_id : String
  expected_flow_layers : List String
  expected_events : List String
deriving Repr

/-- `TargetBoundedContextSpec` dataclass. -/
structure TargetBoundedContextSpec where
  id : String
  name : String
  package_patterns : List String
  expected_layers : List String
  notes : String := ""
deriving Repr

/-- `TargetArchitectureSpec` dataclass (dict values in insertion order). -/
structure TargetArchitectureSpec where
  name : String
  bounded_contexts : List TargetBoundedContextSpec
  use_case_blueprints : List TargetUseCaseBlueprint
  module_guidelines : List (String × Bool)
deriving Repr

/-- `matches_package`: exact prefix, or prefix before a trailing `.*`. -/
def matches_package (pattern package : String) : Bool :=
  if pattern = "" then false
  else if endsWithStr pattern ".*" then startsWithStr package (dropRightStr pattern 2)
  else startsWithStr package pattern

/-! ## Use case report records (`analysis/use_case_report.py`) -/

/-- `UseCaseFlowStep` dataclass. -/
structure UseCaseFlowStep where
  index : Nat
  component_id : String
  component_name : String
  layer : String
  package : String
deriving Repr

/-- `DddEvaluationSummary` dataclass. -/
structure DddEvaluationSummary where
  hexagon_rule_violations : Nat
  hexagon_rule_ids : List String
  smells : List ComponentSmell
  hexagon_score : Rat
  has_anemic_domain : Bool
  has_god_service : Bool
  has_cross_aggregate : Bool
deriving Repr

/-- `EventEvaluationSummary` dataclass. -/
structure EventEvaluationSummary where
  readiness_score : Int
  readiness_level : String
  sync_coupling_strength : Rat
  main_suggestions : List UseCaseEventRefactoringSuggestion
deriving Repr

/-- `BoundedContextSummary` dataclass. -/
structure BoundedContextSummary where
  entry_bc_id : String
  entry_bc_name : String
  bc_ids_on_path : List String
  has_cross_bc_flow : Bool
  notes : String
deriving Repr

/-- `RefactoringSuggestion` dataclass. -/
structure RefactoringSuggestion where
  id : String
  category : String
  title : String
  description : String
  related_components : List String
deriving Repr

/-- `UseCaseReport` dataclass. -/
structure UseCaseReport where
  use_case_id : String
  use_case_name : String
  entry_component_id : String
  entry_layer : String
  flow_steps : List UseCaseFlowStep
  ddd_summary : DddEvaluationSummary
  event_summary : EventEvaluationSummary
  bc_summary : BoundedContextSummary
  refactoring_suggestions : List RefactoringSuggestion
deriving Repr

/-- `UseCaseReportSet` dataclass (dict values in insertion order). -/
structure UseCaseReportSet where
  reports : List UseCaseReport
deriving Repr

/-- `ProjectSmellSummary` dataclass. -/
structure ProjectSmellSummary where
  smells : List ComponentSmell
  smells_by_type : List (SmellType × Nat)
  smells_by_layer : List (String × Nat)
  anemic_domain_ratio : Rat
  god_service_ratio : Rat
  repository_leak_ratio : Rat
  cross_aggregate_coupling_ratio : Rat
deriving Repr

/-! ## Migration planner (`analysis/migration_planner.py`) -/

/-- `MigrationItemType` enum. -/
inductive MigrationItemType where
  | move_to_layer
  | move_to_bounded_context
  | split_service
  | extract_domain_logic
  | introduce_port
  | introduce_event
  | introduce_saga
  | fix_repository_leak
  | restructure_use_case
  | other
deriving DecidableEq, Repr

/-- `MigrationPriority` enum. -/
inductive MigrationPriority where
  | high
  | medium
  | low
deriving DecidableEq, Repr

/-- `MigrationItem` dataclass. -/
structure MigrationItem where
  id : String
  item_type : MigrationItemType
  priority : MigrationPriority
  title : String
  description : String
  rationale : String
  related_components : List String
  related_use_cases : List String
  related_bc_ids : List String
  tags : List String
deriving Repr

/-- `MigrationPhase` dataclass. -/
structure MigrationPhase where
  id : String
  name : String
  description : String
  items : List MigrationItem
deriving Repr

/-- `MigrationPlan` dataclass. -/
structure MigrationPlan where
  current_project_name : String
  target_name : String
  phases : List MigrationPhase
  all_items : List MigrationItem
deriving Repr

/-- `generate_layer_level_migration_items` (the `target_spec` and
`rules_summary` parameters are unused in the source body as well). -/
def generate_layer_level_migration_items (current_graph : Graph)
    (target_spec : TargetArchitectureSpec) (rules_summary : RuleAnalysisSummary)
    (rules_index : List (String × List RuleViolation))
    (smells_summary : ProjectSmellSummary) : List MigrationItem :=
  let components := current_graph.components
  (rules_index.flatMap (fun entry =>
    entry.2.filterMap (fun violation =>
      if violation.rule_id = "DOMAIN_DEPENDS_ON_ADAPTER" ∨
         violation.rule_id = "APPLICATION_DEPENDS_ON_ADAPTER" ∨
         violation.rule_id = "ADAPTER_DIRECTLY_DEPENDS_ON_DOMAIN" then
        let source := dictLookup Component.id components violation.source_component_id
        let target := match violation.target_component_id with
          | some tid => dictLookup Component.id components tid
          | none => none
        some
          { id := violation.rule_id ++ "_" ++ violation.source_component_id
            item_type := .introduce_port
            priority := .high
            title := "도메인/어댑터 의존 제거 및 포트 도입"
            description := ((source.map Component.name).getD "Component") ++ " → "
              ++ ((target.map Component.name).getD "Component")
              ++ " 의존을 포트 기반으로 재구성하세요."
            rationale := "헥사고날 규칙 위반 " ++ violation.rule_id ++ " + target guideline mismatch"
            related_components :=
              ([some violation.source_component_id, violation.target_component_id].filterMap
                (fun o => o)).filter (fun cid => cid ≠ "")
            related_use_cases := []
            related_bc_ids := []
            tags := [lowerStr violation.rule_id] }
      else none))) ++
  (smells_summary.smells.filterMap (fun smell =>
    if smell.smell_type = .repository_leak then
      some
        { id := "repo_leak_" ++ smell.component_id
          item_type := .fix_repository_leak
          priority := .medium
          title := "Repository Leak 정리"
          description := smell.component_name ++ "에서 ORM/Repository 의존이 감지되었습니다. "
            ++ "Outbound adapter로 이동하거나 포트로 감싸세요."
          rationale := "Repository leak smell"
          related_components := [smell.component_id]
          related_use_cases := []
          related_bc_ids := []
          tags := ["repository_leak"] }
    else none))

/-- `_match_blueprint`: first blueprint with case-insensitively equal name. -/
def matchBlueprint (name : String) (target_spec : TargetArchitectureSpec) :
    Option TargetUseCaseBlueprint :=
  target_spec.use_case_blueprints.find? (fun bp => lowerStr bp.name == lowerStr name)

/-- `generate_use_case_level_migration_items` (its `event_readiness` argument
is unused in the source body as well). -/
def generate_use_case_level_migration_items (use_case_reports : UseCaseReportSet)
    (event_readiness : EventReadinessAnalysisResult)
    (target_spec : TargetArchitectureSpec) : List MigrationItem :=
  use_case_reports.reports.flatMap (fun report =>
    (if report.event_summary.readiness_level = "high" then
      report.event_summary.main_suggestions.filterMap (fun suggestion =>
        if containsSubstr suggestion.suggestion_type "saga" then
          some
            { id := report.use_case_id ++ "_saga"
              item_type := .introduce_saga
              priority := .high
              title := "유스케이스 \x27" ++ report.use_case_name ++ "\x27에 Saga 도입"
              description := "여러 외부 시스템과 애그리게잇이 연쇄적으로 등장합니다. "
                ++ "Saga 또는 Process Manager를 도입하세요."
              rationale := "High event readiness + saga suggestion"
              related_components := suggestion.important_components
              related_use_cases := [report.use_case_id]
              related_bc_ids := []
              tags := ["saga", "event"] }
        else none)
     else []) ++
    (if report.ddd_summary.has_god_service ∨ report.ddd_summary.has_cross_aggregate then
      [{ id := report.use_case_id ++ "_split_service"
         item_type := .restructure_use_case
         priority := .high
         title := "유스케이스 \x27" ++ report.use_case_name ++ "\x27 리팩토링"
         description := "God Service 또는 Cross-Aggregate 스멜이 감지되었습니다. "
           ++ "유스케이스를 분리하고 애그리게잇 경계를 재설계하세요."
         rationale := "DDD smell detected in flow"
         related_components := report.flow_steps.map UseCaseFlowStep.component_id
         related_use_cases := [report.use_case_id]
         related_bc_ids := report.bc_summary.bc_ids_on_path
         tags := ["god_service", "cross_aggregate"] }]
     else []) ++
    (match matchBlueprint report.use_case_name target_spec with
     | some blueprint =>
       if ¬ blueprint.expected_events.isEmpty ∧ report.event_summary.main_suggestions.isEmpty then
         [{ id := report.use_case_id ++ "_events"
            item_type := .introduce_event
            priority := .medium
            title := "유스케이스 \x27" ++ report.use_case_name ++ "\x27 이벤트 도입"
            description := "Target blueprint에 기대 이벤트가 정의되어 있습니다. 예: "
              ++ String.intercalate ", " blueprint.expected_events
            rationale := "Target blueprint expected events not present"
            related_components := report.flow_steps.map UseCaseFlowStep.component_id
            related_use_cases := [report.use_case_id]
            related_bc_ids := report.bc_summary.bc_ids_on_path
            tags := ["event"] }]
       else []
     | none => []))

/-- `_match_target_bc`: first target BC spec one of whose package patterns
matches the context's name. -/
def matchTargetBc (bc : BoundedContext) (target_spec : TargetArchitectureSpec) :
    Option TargetBoundedContextSpec :=
  target_spec.bounded_contexts.find? (fun target =>
    target.package_patterns.any (fun pattern => matches_package pattern bc.name))

/-- `generate_bounded_context_level_migration_items`. -/
def generate_bounded_context_level_migration_items
    (bc_result : BoundedContextAnalysisResult)
    (target_spec : TargetArchitectureSpec) : List MigrationItem :=
  bc_result.contexts.filterMap (fun bc =>
    match matchTargetBc bc target_spec with
    | none => none
    | some target_bc =>
      let missing_layers := target_bc.expected_layers.filter
        (fun layer => ¬ bc.layers_present.contains layer)
      if missing_layers ≠ [] then
        some
          { id := bc.id ++ "_missing_layers"
            item_type := .introduce_port
            priority := .medium
            title := "BC \x27" ++ bc.name ++ "\x27 레이어 보완"
            description := "Target BC에서 필요한 레이어가 누락됨: "
              ++ String.intercalate ", " missing_layers
            rationale := "Target BC expected layers missing"
            related_components := bc.component_ids
            related_use_cases := []
            related_bc_ids := [bc.id]
            tags := ["bounded_context"] }
      else none)

/-- Membership test of the first `if` of the phase-grouping loop. -/
def isPhase1Type (t : MigrationItemType) : Bool :=
  t = .move_to_layer ∨ t = .fix_repository_leak ∨ t = .introduce_port

/-- Membership test of the `elif` of the phase-grouping loop. -/
def isPhase2Type (t : MigrationItemType) : Bool :=
  t = .split_service ∨ t = .extract_domain_logic ∨ t = .restructure_use_case

/-- `group_migration_items_into_phases`: each item is appended to the first
matching phase bucket; the three phases come out in dict insertion order. -/
def group_migration_items_into_phases (items : List MigrationItem) :
    List MigrationPhase :=
  [{ id := "phase_1"
     name := "Phase 1 - Rules & Infra Cleanup"
     description := "Fix rule violations, repo leaks, and layer issues."
     items := items.filter (fun item => isPhase1Type item.item_type) },
   { id := "phase_2"
     name := "Phase 2 - Use Case Refactoring"
     description := "Split services and adjust domain boundaries."
     items := items.filter (fun item =>
       !(isPhase1Type item.item_type) && isPhase2Type item.item_type) },
   { id := "phase_3"
     name := "Phase 3 - Events & BC Optimization"
     description := "Introduce events/sagas and align bounded contexts."
     items := items.filter (fun item =>
       !(isPhase1Type item.item_type) && !(isPhase2Type item.item_type)) }]

/-- `build_migration_plan`. -/
def build_migration_plan (current_graph : Graph) (target_spec : TargetArchitectureSpec)
    (rules_summary : RuleAnalysisSummary)
    (rules_index : List (String × List RuleViolation))
    (smells_summary : ProjectSmellSummary)
    (event_readiness : EventReadinessAnalysisResult)
    (bc_result : BoundedContextAnalysisResult)
    (use_case_reports : UseCaseReportSet)
    (current_project_name : String := "Current Project") : MigrationPlan :=
  let items :=
    generate_layer_level_migration_items current_graph target_spec rules_summary
      rules_index smells_summary ++
    generate_use_case_level_migration_items use_case_reports event_readiness target_spec ++
    generate_bounded_context_level_migration_items bc_result target_spec
  { current_project_name := current_project_name
    target_name := target_spec.name
    phases := group_migration_items_into_phases items
    all_items := items }

/-! ## Flow extractor lemmas -/

theorem dictLookup_eq_none {α : Type} (key : α → String) (xs : List α) (k : String)
    (h : ∀ x ∈ xs, key x ≠ k) : dictLookup key xs k = none := by
  unfold dictLookup
  rw [List.find?_eq_none]
  intro x hx
  simp only [beq_iff_eq]
  exact h x (List.mem_reverse.mp hx)

theorem dfs_path_invariant (g : Graph) (maxDepth : Nat) :
    ∀ (fuel : Nat) (current_id : String) (path visited : List String) (depth : Nat),
      maxDepth + 1 - depth ≤ fuel →
      path.Nodup → (∀ x ∈ path, x ∈ visited) → current_id ∉ visited →
      path.length ≤ depth → depth ≤ maxDepth + 1 →
      ∀ p ∈ dfs g maxDepth current_id path visited depth,
        p.Nodup ∧ p.length ≤ maxDepth + 1 := by
  intro fuel
  induction fuel with
  | zero =>
    intro current path visited depth hfuel hnd hsub hcv hlen hdep p hp
    have hgt : depth > maxDepth := by omega
    unfold dfs at hp
    rw [dif_pos hgt] at hp
    have hpe := List.mem_singleton.mp hp
    subst hpe
    exact ⟨hnd, by omega⟩
  | succ n ih =>
    intro current path visited depth hfuel hnd hsub hcv hlen hdep p hp
    by_cases hgt : depth > maxDepth
    · unfold dfs at hp
      rw [dif_pos hgt] at hp
      have hpe := List.mem_singleton.mp hp
      subst hpe
      exact ⟨hnd, by omega⟩
    · unfold dfs at hp
      rw [dif_neg hgt] at hp
      cases hlk : dictLookup Component.id g.components current with
      | none => rw [hlk] at hp; simp at hp
      | some comp =>
        rw [hlk] at hp
        dsimp only at hp
        have hcp : current ∉ path := fun hx => hcv (hsub current hx)
        have hnd2 : (path ++ [current]).Nodup := by
          rw [List.nodup_append]
          exact ⟨hnd, List.nodup_singleton current,
            fun a ha hb => hcp ((List.mem_singleton.mp hb) ▸ ha)⟩
        by_cases hnb : get_flow_neighbors comp g.components g.dependencies = []
        · rw [if_pos hnb] at hp
          have hpe := List.mem_singleton.mp hp
          subst hpe
          refine ⟨hnd2, ?_⟩
          rw [List.length_append, List.length_singleton]
          omega
        · rw [if_neg hnb] at hp
          obtain ⟨nb, hnbmem, hpdfs⟩ := List.mem_flatMap.mp hp
          have hnbv : nb.id ∉ current :: visited := by
            simpa using (List.mem_filter.mp hnbmem).2
          refine ih nb.id (path ++ [current]) (current :: visited) (depth + 1)
            (by omega) hnd2 ?_ hnbv ?_ (by omega) p hpdfs
          · intro x hx
            rcases List.mem_append.mp hx with hx1 | hx2
            · exact List.mem_cons_of_mem _ (hsub x hx1)
            · rw [List.mem_singleton.mp hx2]; exact List.mem_cons_self _ _
          · rw [List.length_append, List.length_singleton]; omega

/-! ## C2 — unknown start id gives an empty result, not an error -/

/-- The only component of the C2 graph. -/
def compA : Component :=
  { id := "comp.A", name := "A", path := "", package := "", layer := "domain" }

/-- A one-component graph; `"missing"` is not the id of any component. -/
def gFlowC2 : Graph := { components := [compA], dependencies := [] }

/-- C2 counterexample: an unknown start id makes `compute_flow_path` return the
silent empty `FlowResult` — no typed `NotFoundError` exists anywhere in the
code, so the claimed error cannot be raised. -/
theorem c2_unknown_start_counterexample :
    compute_flow_path gFlowC2 "missing" 12 = { nodes := [], edges := [] } := by
  have hl : dictLookup Component.id gFlowC2.components "missing" = none := rfl
  have h1 : compute_flow_paths gFlowC2 "missing" 12 = [] := by
    unfold compute_flow_paths
    unfold dfs
    simp [hl]
  simp [compute_flow_path, h1]

/-- C2 (amended): for every graph and every start id that is not the id of any
component, the flow-path computation silently returns no paths and the empty
`FlowResult`; it raises nothing (the code defines no `NotFoundError`). -/
theorem c2_unknown_start_silent_empty (g : Graph) (start_id : String) (maxDepth : Nat)
    (h : ∀ c ∈ g.components, c.id ≠ start_id) :
    compute_flow_paths g start_id maxDepth = [] ∧
    compute_flow_path g start_id maxDepth = { nodes := [], edges := [] } := by
  have hl : dictLookup Component.id g.components start_id = none :=
    dictLookup_eq_none Component.id g.components start_id h
  have h1 : compute_flow_paths g start_id maxDepth = [] := by
    unfold compute_flow_paths
    unfold dfs
    simp [hl]
  exact ⟨h1, by simp [compute_flow_path, h1]⟩

/-- C2 witness: the amended theorem instantiated on the concrete graph. -/
theorem c2_unknown_start_witness :
    (∀ c ∈ gFlowC2.components, c.id ≠ "nope") ∧
    compute_flow_paths gFlowC2 "nope" 12 = [] :=
  ⟨by decide, (c2_unknown_start_silent_empty gFlowC2 "nope" 12 (by decide)).1⟩

/-! ## C5 — flow path invariants -/

/-- C5: every path enumerated by the flow extractor is simple (no repeated node
id) and has at most `maxDepth + 1` nodes; a start node present in the graph
with no flow-neighbors yields exactly the single-node path. -/
theorem c5_flow_path_invariants (g : Graph) (start_id : String) (maxDepth : Nat) :
    (∀ p ∈ compute_flow_paths g start_id maxDepth, p.Nodup ∧ p.length ≤ maxDepth + 1) ∧
    (∀ c, dictLookup Component.id g.components start_id = some c →
      get_flow_neighbors c g.components g.dependencies = [] →
      compute_flow_paths g start_id maxDepth = [[start_id]]) := by
  constructor
  · intro p hp
    exact dfs_path_invariant g maxDepth (maxDepth + 1) start_id [] [] 0 (by omega)
      List.nodup_nil (by simp) (by simp) (by simp) (by omega) p hp
  · intro c hc hnb
    unfold compute_flow_paths
    unfold dfs
    rw [dif_neg (by omega)]
    rw [hc]
    simp [hnb]

/-- An isolated outbound_adapter component (no flow-neighbor branch). -/
def soloComp : Component :=
  { id := "solo", name := "Solo", path := "", package := "", layer := "outbound_adapter" }

/-- A graph holding only the isolated component. -/
def gFlowC5 : Graph := { components := [soloComp], dependencies := [] }

/-- C5 witness: the invariants instantiated on a concrete isolated start node. -/
theorem c5_flow_path_witness :
    compute_flow_paths gFlowC5 "solo" 12 = [["solo"]] ∧
    (["solo"] : List String).Nodup ∧ (["solo"] : List String).length ≤ 13 := by
  have h := c5_flow_path_invariants gFlowC5 "solo" 12
  have h2 := h.2 soloComp rfl rfl
  refine ⟨h2, ?_, ?_⟩
  · exact (h.1 ["solo"] (h2 ▸ List.mem_singleton.mpr rfl)).1
  · exact (h.1 ["solo"] (h2 ▸ List.mem_singleton.mpr rfl)).2

/-! ## Concrete graphs from the spec's test scenarios -/

/-- Scenario C: Service(application) → JpaRepo(outbound_adapter), kind import. -/
def gScenarioC : Graph :=
  { components :=
      [{ id := "app.Service", name := "Service", path := "", package := "",
         layer := "application" },
       { id := "adapter.JpaRepo", name := "JpaRepo", path := "", package := "",
         layer := "outbound_adapter" }]
    dependencies := [⟨"app.Service", "adapter.JpaRepo", "import"⟩] }

/-- Scenario A component Order (domain). -/
def orderComp : Component :=
  { id := "domain.Order", name := "Order", path := "", package := "", layer := "domain" }

/-- Scenario A component OrderController (inbound_adapter). -/
def orderCtrlComp : Component :=
  { id := "adapter.OrderController", name := "OrderController", path := "", package := "",
    layer := "inbound_adapter" }

/-- Scenario A: Order(domain) → OrderController(inbound_adapter), kind import. -/
def gScenarioA : Graph :=
  { components := [orderComp, orderCtrlComp]
    dependencies := [⟨"domain.Order", "adapter.OrderController", "import"⟩] }

/-! ## C1 — Scenario C emits two violations, not one -/

/-- C1 counterexample: on the Scenario C graph `analyze_layer_rules` does NOT
emit exactly one violation with no `FORBIDDEN_LAYER_DEPENDENCY` — it emits
two, one of them a `FORBIDDEN_LAYER_DEPENDENCY`. -/
theorem c1_scenario_c_counterexample :
    ¬ ((analyze_layer_rules gScenarioC).length = 1 ∧
       ∀ v ∈ analyze_layer_rules gScenarioC, v.rule_id ≠ "FORBIDDEN_LAYER_DEPENDENCY") := by
  decide

/-- C1 (amended): on the Scenario C graph `analyze_layer_rules` emits exactly
two violations — a `FORBIDDEN_LAYER_DEPENDENCY` warning followed by an
`APPLICATION_DEPENDS_ON_ADAPTER` warning — because `outbound_adapter` is NOT
in the allowed-dependency set of `application`. -/
theorem c1_scenario_c_two_violations :
    (analyze_layer_rules gScenarioC).map (fun v => (v.rule_id, v.severity)) =
      [("FORBIDDEN_LAYER_DEPENDENCY", "warning"),
       ("APPLICATION_DEPENDS_ON_ADAPTER", "warning")] ∧
    Layer.outbound_adapter ∉ ALLOWED_DEPENDENCIES Layer.application := by
  exact ⟨rfl, by decide⟩

/-! ## C4 — score_project algebraic properties -/

/-- C4: `score_project` of no violations is 100; appending a violation never
increases the score; the score always lies in [0, 100]. -/
theorem c4_score_project_properties :
    score_project [] = 100 ∧
    (∀ (violations : List RuleViolation) (v : RuleViolation),
      score_project (violations ++ [v]) ≤ score_project violations) ∧
    (∀ violations : List RuleViolation,
      0 ≤ score_project violations ∧ score_project violations ≤ 100) := by
  refine ⟨rfl, ?_, fun vs => ⟨score_project_nonneg vs, score_project_le_100 vs⟩⟩
  intro vs v
  rw [score_project_eq, score_project_eq]
  have h := violationWeight_pos v
  simp only [List.map_append, List.sum_append, List.map_cons, List.map_nil,
    List.sum_cons, List.sum_nil]
  omega

/-! ## C6 — domain→inbound_adapter edges -/

/-- C6: every dependency whose resolved source is a domain component and whose
resolved target is an inbound_adapter component produces both a
`DOMAIN_DEPENDS_ON_ADAPTER` error and a `FORBIDDEN_LAYER_DEPENDENCY` warning
for that edge; when that edge is the only dependency, the project score is
100 − (7+5) − (3+0) = 85. -/
theorem c6_domain_to_inbound_adapter (g : Graph) (dep : Dependency) (s t : Component)
    (hdep : dep ∈ g.dependencies)
    (hs : dictLookup Component.id g.components dep.source_id = some s)
    (hsl : s.layer = "domain")
    (ht : dictLookup Component.id g.components dep.target_id = some t)
    (htl : t.layer = "inbound_adapter") :
    (∃ v ∈ analyze_layer_rules g, v.rule_id = "DOMAIN_DEPENDS_ON_ADAPTER" ∧
      v.severity = "error" ∧ v.source_component_id = s.id ∧
      v.target_component_id = some t.id) ∧
    (∃ v ∈ analyze_layer_rules g, v.rule_id = "FORBIDDEN_LAYER_DEPENDENCY" ∧
      v.severity = "warning" ∧ v.source_component_id = s.id ∧
      v.target_component_id = some t.id) ∧
    (g.dependencies = [dep] → score_project (analyze_layer_rules g) = 85) := by
  have hval : violationsForDep g.components dep =
      [{ rule_id := "FORBIDDEN_LAYER_DEPENDENCY"
         severity := "warning"
         message := "Layer rule violation: \x27" ++ s.name ++ "\x27 (" ++ "domain"
           ++ ") depends on \x27" ++ t.name ++ "\x27 (" ++ "inbound_adapter" ++ ")."
         source_component_id := s.id
         target_component_id := some t.id
         source_layer := .domain
         target_layer := some .inbound_adapter
         dependency_kind := dep.kind },
       { rule_id := "DOMAIN_DEPENDS_ON_ADAPTER"
         severity := "error"
         message := "Domain layer component \x27" ++ s.name ++ "\x27 depends on adapter \x27"
           ++ t.name ++ "\x27. Domain must not depend on any adapter."
         source_component_id := s.id
         target_component_id := some t.id
         source_layer := .domain
         target_layer := some .inbound_adapter
         dependency_kind := dep.kind }] := by
    unfold violationsForDep
    rw [hs, ht]
    dsimp only
    rw [hsl, htl]
    rfl
  have hmem : ∀ v ∈ violationsForDep g.components dep, v ∈ analyze_layer_rules g :=
    fun v hv => List.mem_flatMap.mpr ⟨dep, hdep, hv⟩
  refine ⟨⟨_, hmem _ (by rw [hval]; exact List.mem_cons_of_mem _ (List.mem_singleton.mpr rfl)),
      rfl, rfl, rfl, rfl⟩,
    ⟨_, hmem _ (by rw [hval]; exact List.mem_cons_self _ _), rfl, rfl, rfl, rfl⟩, ?_⟩
  intro hg
  have : analyze_layer_rules g = violationsForDep g.components dep := by
    unfold analyze_layer_rules
    rw [hg]
    simp
  rw [this, hval, score_project_eq]
  rfl

/-- C6 witness: Scenario A instantiation. -/
theorem c6_scenario_a_witness :
    (∃ v ∈ analyze_layer_rules gScenarioA, v.rule_id = "DOMAIN_DEPENDS_ON_ADAPTER" ∧
      v.severity = "error" ∧ v.source_component_id = "domain.Order" ∧
      v.target_component_id = some "adapter.OrderController") ∧
    score_project (analyze_layer_rules gScenarioA) = 85 := by
  have h := c6_domain_to_inbound_adapter gScenarioA
    ⟨"domain.Order", "adapter.OrderController", "import"⟩ orderComp orderCtrlComp
    (by decide) rfl rfl rfl rfl
  exact ⟨h.1, h.2.2 rfl⟩

/-! ## C3 — repository-leak severities -/

/-- Domain component importing a persistence marker (`org.hibernate.Session`). -/
def repoLeakDomainComp : Component :=
  { id := "domain.Order", name := "Order", path := "", package := "com.shop.domain",
    layer := "domain", imports := ["org.hibernate.Session"] }

/-- Application component importing a persistence marker. -/
def repoLeakAppComp : Component :=
  { id := "app.OrderService", name := "OrderService", path := "", package := "com.shop.app",
    layer := "application", imports := ["jakarta.persistence.EntityManager"] }

/-- Graph with one leaking domain component and one leaking application component. -/
def gRepoLeak : Graph :=
  { components := [repoLeakDomainComp, repoLeakAppComp], dependencies := [] }

/-- C3 counterexample: the persistence-importing domain component is flagged
with `warning` severity, not `error` as the claim states. -/
theorem c3_domain_leak_severity_counterexample :
    hasRepoImport repoLeakDomainComp = true ∧ repoLeakDomainComp.layer = "domain" ∧
    (detect_repository_leaks gRepoLeak).map (fun s => (s.component_id, s.severity)) =
      [("domain.Order", SmellSeverity.warning), ("app.OrderService", SmellSeverity.info)] :=
  ⟨rfl, rfl, rfl⟩

/-- C3 (amended): every component whose imports or annotations match a
persistence/ORM marker substring is flagged as a `repository_leak` with
`warning` severity when its layer is domain, and with `info` severity when
its layer is application or inbound_adapter. -/
theorem c3_repository_leak_severities (g : Graph) (c : Component)
    (hc : c ∈ g.components) (hm : hasRepoImport c = true) :
    (c.layer = "domain" →
      ∃ s ∈ detect_repository_leaks g, s.smell_type = SmellType.repository_leak ∧
        s.component_id = c.id ∧ s.severity = SmellSeverity.warning) ∧
    (c.layer = "application" ∨ c.layer = "inbound_adapter" →
      ∃ s ∈ detect_repository_leaks g, s.smell_type = SmellType.repository_leak ∧
        s.component_id = c.id ∧ s.severity = SmellSeverity.info) := by
  constructor
  · intro hd
    have hmem2 : domainLeakSmell c ∈ repositoryLeaksFor c := by
      unfold repositoryLeaksFor
      rw [if_pos ⟨hd, hm⟩]
      exact List.mem_append_left _ (List.mem_singleton.mpr rfl)
    exact ⟨domainLeakSmell c, List.mem_flatMap.mpr ⟨c, hc, hmem2⟩, rfl, rfl, rfl⟩
  · intro ha
    have hmem2 : adapterLeakSmell c ∈ repositoryLeaksFor c := by
      have hnd : ¬ (c.layer = "domain" ∧ hasRepoImport c = true) := by
        rintro ⟨hdom, _⟩
        rcases ha with h2 | h2 <;> rw [h2] at hdom <;> exact absurd hdom (by decide)
      unfold repositoryLeaksFor
      rw [if_neg hnd, if_pos ⟨ha, hm⟩]
      exact List.mem_append_right _ (List.mem_singleton.mpr rfl)
    exact ⟨adapterLeakSmell c, List.mem_flatMap.mpr ⟨c, hc, hmem2⟩, rfl, rfl, rfl⟩

/-- C3 witness: both severity branches instantiated on the concrete graph. -/
theorem c3_repository_leak_witness :
    (∃ s ∈ detect_repository_leaks gRepoLeak, s.smell_type = SmellType.repository_leak ∧
      s.component_id = "domain.Order" ∧ s.severity = SmellSeverity.warning) ∧
    (∃ s ∈ detect_repository_leaks gRepoLeak, s.smell_type = SmellType.repository_leak ∧
      s.component_id = "app.OrderService" ∧ s.severity = SmellSeverity.info) :=
  ⟨(c3_repository_leak_severities gRepoLeak repoLeakDomainComp (by decide) rfl).1 rfl,
   (c3_repository_leak_severities gRepoLeak repoLeakAppComp (by decide) rfl).2 (Or.inl rfl)⟩

/-! ## C10 — aggregate-group vs bounded-context prefix heuristics -/

/-- A domain component with an empty package. -/
def emptyPkgComp : Component :=
  { id := "x", name := "Order", path := "", package := "", layer := "domain" }

/-- C10 counterexample: on a component with empty package the two heuristics
disagree — `guess_aggregate_group` falls back to the component name while
`extract_bc_prefix` returns the empty package itself. -/
theorem c10_empty_package_counterexample :
    guess_aggregate_group emptyPkgComp = "Order" ∧
    extract_bc_prefix emptyPkgComp.package = "" ∧
    guess_aggregate_group emptyPkgComp ≠ extract_bc_prefix emptyPkgComp.package := by
  exact ⟨rfl, rfl, by decide⟩

/-- C10 (amended): the two package-prefix heuristics agree on every component
whose package is non-empty; they differ only on the empty package, where
`guess_aggregate_group` falls back to the component name. -/
theorem c10_heuristics_agree_on_nonempty_package (c : Component) (h : c.package ≠ "") :
    guess_aggregate_group c = extract_bc_prefix c.package := by
  by_cases h3 : (pySplit c.package '.').length ≥ 3
  · simp [guess_aggregate_group, extract_bc_prefix, h3]
  · by_cases h2 : (pySplit c.package '.').length ≥ 2
    · simp [guess_aggregate_group, extract_bc_prefix, h3, h2]
    · simp [guess_aggregate_group, extract_bc_prefix, h3, h2, h]

/-- Component used to instantiate the C10 agreement theorem. -/
def c10Comp : Component :=
  { id := "y", name := "Order", path := "", package := "com.shop.domain.order",
    layer := "domain" }

/-- C10 witness: the agreement theorem at a concrete non-empty package. -/
theorem c10_heuristics_agree_witness :
    c10Comp.package ≠ "" ∧ guess_aggregate_group c10Comp = extract_bc_prefix c10Comp.package :=
  ⟨by decide, c10_heuristics_agree_on_nonempty_package c10Comp (by decide)⟩

/-! ## C7 — event-readiness score bounds and level buckets -/

theorem clamp_0_100_bounds (x : Int) : 0 ≤ max 0 (min 100 x) ∧ max 0 (min 100 x) ≤ 100 := by
  omega

/-- C7: for every metrics record the event-readiness score lies in [0,100] and
the level is exactly high when score ≥ 70, medium when 40 ≤ score < 70 and low
otherwise. -/
theorem c7_readiness_score_bounds_and_level (metrics : UseCaseEventReadinessMetrics) :
    0 ≤ (score_use_case_event_readiness metrics).score ∧
    (score_use_case_event_readiness metrics).score ≤ 100 ∧
    (score_use_case_event_readiness metrics).level =
      (if (score_use_case_event_readiness metrics).score ≥ 70 then "high"
       else if (score_use_case_event_readiness metrics).score ≥ 40 then "medium"
       else "low") := by
  refine ⟨?_, ?_, rfl⟩
  · exact (clamp_0_100_bounds _).1
  · exact (clamp_0_100_bounds _).2

/-! ## C9 — migration plan determinism and phase partition -/

theorem filter_not_and_eq (p q : MigrationItem → Bool) (items : List MigrationItem) :
    (items.filter (fun i => !(p i))).filter q = items.filter (fun i => !(p i) && q i) := by
  rw [List.filter_filter]
  exact List.filter_congr (fun i _ => Bool.and_comm _ _)

theorem phases_partition (items : List MigrationItem) :
    ((group_migration_items_into_phases items).map MigrationPhase.items).flatten.Perm items := by
  simp only [group_migration_items_into_phases, List.map_cons, List.map_nil,
    List.flatten_cons, List.flatten_nil, List.append_nil]
  have h2 := List.filter_append_perm (fun i => isPhase2Type i.item_type)
    (items.filter (fun i => !(isPhase1Type i.item_type)))
  rw [filter_not_and_eq, filter_not_and_eq] at h2
  have h2' : (items.filter (fun i => !(isPhase1Type i.item_type) && isPhase2Type i.item_type) ++
      items.filter (fun i => !(isPhase1Type i.item_type) && !(isPhase2Type i.item_type))).Perm
      (items.filter (fun i => !(isPhase1Type i.item_type))) := h2
  have h1 := List.filter_append_perm (fun i => isPhase1Type i.item_type) items
  exact (List.Perm.append_left _ h2').trans h1

/-- C9: `build_migration_plan` is a pure function of its inputs — two runs on
identical inputs yield identical item ids and identical phase placement — and
the three fixed phases partition the generated items (each item lands in
exactly one phase). -/
theorem c9_migration_plan_determinism_and_phases (current_graph : Graph)
    (target_spec : TargetArchitectureSpec) (rules_summary : RuleAnalysisSummary)
    (rules_index : List (String × List RuleViolation)) (smells_summary : ProjectSmellSummary)
    (event_readiness : EventReadinessAnalysisResult) (bc_result : BoundedContextAnalysisResult)
    (use_case_reports : UseCaseReportSet) (project_name : String)
    (g2 : Graph) (t2 : TargetArchitectureSpec) (r2 : RuleAnalysisSummary)
    (ri2 : List (String × List RuleViolation)) (s2 : ProjectSmellSummary)
    (e2 : EventReadinessAnalysisResult) (b2 : BoundedContextAnalysisResult)
    (u2 : UseCaseReportSet) (p2 : String)
    (hg : current_graph = g2) (ht : target_spec = t2) (hr : rules_summary = r2)
    (hri : rules_index = ri2) (hs : smells_summary = s2) (he : event_readiness = e2)
    (hb : bc_result = b2) (hu : use_case_reports = u2) (hp : project_name = p2) :
    ((build_migration_plan current_graph target_spec rules_summary rules_index smells_summary
        event_readiness bc_result use_case_reports project_name).all_items.map MigrationItem.id =
      (build_migration_plan g2 t2 r2 ri2 s2 e2 b2 u2 p2).all_items.map MigrationItem.id ∧
     (build_migration_plan current_graph target_spec rules_summary rules_index smells_summary
        event_readiness bc_result use_case_reports project_name).phases.map
          (fun ph => (ph.id, ph.items.map MigrationItem.id)) =
      (build_migration_plan g2 t2 r2 ri2 s2 e2 b2 u2 p2).phases.map
          (fun ph => (ph.id, ph.items.map MigrationItem.id))) ∧
    ((build_migration_plan current_graph target_spec rules_summary rules_index smells_summary
        event_readiness bc_result use_case_reports project_name).phases.map
          MigrationPhase.items).flatten.Perm
      (build_migration_plan current_graph target_spec rules_summary rules_index smells_summary
        event_readiness bc_result use_case_reports project_name).all_items ∧
    (build_migration_plan current_graph target_spec rules_summary rules_index smells_summary
        event_readiness bc_result use_case_reports project_name).phases.map
          MigrationPhase.id = ["phase_1", "phase_2", "phase_3"] := by
  subst hg ht hr hri hs he hb hu hp
  refine ⟨⟨rfl, rfl⟩, ?_, rfl⟩
  exact phases_partition _

/-- Empty target-architecture spec used in the C9 witness. -/
def emptyTargetSpec : TargetArchitectureSpec :=
  { name := "Target", bounded_contexts := [], use_case_blueprints := [],
    module_guidelines := [] }

/-- Zeroed rule summary used in the C9 witness. -/
def emptyRuleSummary : RuleAnalysisSummary :=
  { score := 100, total_components := 0, total_dependencies := 0, total_violations := 0,
    violations_by_rule := [], violations_by_layer_pair := [] }

/-- Empty smell summary used in the C9 witness. -/
def emptySmellSummary : ProjectSmellSummary :=
  { smells := [], smells_by_type := [], smells_by_layer := [], anemic_domain_ratio := 0,
    god_service_ratio := 0, repository_leak_ratio := 0, cross_aggregate_coupling_ratio := 0 }

/-- Empty event-readiness result used in the C9 witness. -/
def emptyReadiness : EventReadinessAnalysisResult :=
  { per_use_case_metrics := [], per_use_case_scores := [], per_use_case_suggestions := [],
    project_summary :=
      { total_use_cases := 0, avg_score := 0, high_candidate_count := 0,
        medium_candidate_count := 0, low_candidate_count := 0, scores_by_use_case := [],
        top_candidates := [] } }

/-- Empty bounded-context result used in the C9 witness. -/
def emptyBcResult : BoundedContextAnalysisResult := { contexts := [], relations := [] }

/-- Empty report set used in the C9 witness. -/
def emptyReports : UseCaseReportSet := { reports := [] }

/-- C9 witness: the theorem applied to two identical concrete input tuples. -/
theorem c9_migration_plan_witness :
    ((build_migration_plan { components := [], dependencies := [] } emptyTargetSpec
        emptyRuleSummary [] emptySmellSummary emptyReadiness emptyBcResult emptyReports
        "Current Project").phases.map MigrationPhase.items).flatten.Perm
      (build_migration_plan { components := [], dependencies := [] } emptyTargetSpec
        emptyRuleSummary [] emptySmellSummary emptyReadiness emptyBcResult emptyReports
        "Current Project").all_items ∧
    (build_migration_plan { components := [], dependencies := [] } emptyTargetSpec
        emptyRuleSummary [] emptySmellSummary emptyReadiness emptyBcResult emptyReports
        "Current Project").phases.map MigrationPhase.id = ["phase_1", "phase_2", "phase_3"] := by
  have h := c9_migration_plan_determinism_and_phases
    { components := [], dependencies := [] } emptyTargetSpec emptyRuleSummary []
    emptySmellSummary emptyReadiness emptyBcResult emptyReports "Current Project"
    { components := [], dependencies := [] } emptyTargetSpec emptyRuleSummary []
    emptySmellSummary emptyReadiness emptyBcResult emptyReports "Current Project"
    rfl rfl rfl rfl rfl rfl rfl rfl rfl
  exact ⟨h.2.1, h.2.2⟩

/-! ## C8 — bounded-context invariants -/

theorem mem_dedupFirstAux {α : Type} [DecidableEq α] (x : α) :
    ∀ (l : List α) (seen : List α), x ∈ dedupFirstAux seen l ↔ x ∈ l ∧ x ∉ seen := by
  intro l
  induction l with
  | nil => intro seen; simp [dedupFirstAux]
  | cons a rest ih =>
    intro seen
    unfold dedupFirstAux
    by_cases ha : a ∈ seen
    · rw [if_pos ha, ih]
      constructor
      · rintro ⟨h1, h2⟩
        exact ⟨List.mem_cons_of_mem _ h1, h2⟩
      · rintro ⟨h1, h2⟩
        rcases List.mem_cons.mp h1 with he | hm
        · exact absurd (he ▸ ha) h2
        · exact ⟨hm, h2⟩
    · rw [if_neg ha]
      constructor
      · intro hx
        rcases List.mem_cons.mp hx with he | hm
        · exact ⟨he ▸ List.mem_cons_self _ _, he ▸ ha⟩
        · have := (ih (a :: seen)).mp hm
          exact ⟨List.mem_cons_of_mem _ this.1,
            fun hs => this.2 (List.mem_cons_of_mem _ hs)⟩
      · rintro ⟨h1, h2⟩
        rcases List.mem_cons.mp h1 with he | hm
        · exact he ▸ List.mem_cons_self _ _
        · by_cases hxa : x = a
          · exact hxa ▸ List.mem_cons_self _ _
          · exact List.mem_cons_of_mem _ ((ih (a :: seen)).mpr
              ⟨hm, fun hs => (List.mem_cons.mp hs).elim hxa h2⟩)

theorem nodup_dedupFirstAux {α : Type} [DecidableEq α] :
    ∀ (l : List α) (seen : List α), (dedupFirstAux seen l).Nodup := by
  intro l
  induction l with
  | nil => intro seen; simp [dedupFirstAux]
  | cons a rest ih =>
    intro seen
    unfold dedupFirstAux
    by_cases ha : a ∈ seen
    · rw [if_pos ha]; exact ih seen
    · rw [if_neg ha]
      refine List.Nodup.cons ?_ (ih (a :: seen))
      intro hmem
      exact ((mem_dedupFirstAux a rest (a :: seen)).mp hmem).2 (List.mem_cons_self _ _)

theorem mem_dedupFirst {α : Type} [DecidableEq α] (x : α) (l : List α) :
    x ∈ dedupFirst l ↔ x ∈ l := by
  unfold dedupFirst
  rw [mem_dedupFirstAux]
  simp

theorem nodup_dedupFirst {α : Type} [DecidableEq α] (l : List α) : (dedupFirst l).Nodup :=
  nodup_dedupFirstAux l []

theorem insertSorted_perm (s : String) : ∀ l : List String, (insertSorted s l).Perm (s :: l) := by
  intro l
  induction l with
  | nil => exact List.Perm.refl _
  | cons t rest ih =>
    unfold insertSorted
    by_cases hle : strLe s t
    · rw [if_pos hle]
    · rw [if_neg hle]
      exact (List.Perm.cons t ih).trans (List.Perm.swap s t rest)

theorem sortStrings_perm (l : List String) : (sortStrings l).Perm l := by
  induction l with
  | nil => exact List.Perm.refl _
  | cons a rest ih =>
    unfold sortStrings
    show (insertSorted a (List.foldr insertSorted [] rest)).Perm (a :: rest)
    exact (insertSorted_perm a _).trans (List.Perm.cons a ih)

theorem filter_key_restrict {α : Type} (key : α → String) (k k2 : String) (hne : k2 ≠ k)
    (l : List α) :
    (l.filter (fun a => !(key a == k))).filter (fun a => key a == k2) =
      l.filter (fun a => key a == k2) := by
  induction l with
  | nil => rfl
  | cons a rest ih =>
    simp only [List.filter_cons]
    by_cases hk2 : key a = k2
    · simp [hk2, ih, hne]
    · by_cases hk : key a = k
      · simp [hk, hk2, ih, Ne.symm hne]
      · simp [hk, hk2, ih]

theorem flatMap_filter_shift {α : Type} (key : α → String) (k : String) (l : List α) :
    ∀ ks : List String, k ∉ ks →
      ks.flatMap (fun k2 => l.filter (fun a => key a == k2)) =
        ks.flatMap (fun k2 =>
          (l.filter (fun a => !(key a == k))).filter (fun a => key a == k2)) := by
  intro ks
  induction ks with
  | nil => intro _; rfl
  | cons k2 rest ih =>
    intro hk
    simp only [List.flatMap_cons]
    rw [filter_key_restrict key k k2 (fun h => hk (h ▸ List.mem_cons_self _ _)),
      ih (fun h => hk (List.mem_cons_of_mem _ h))]

theorem flatMap_filter_key_perm {α : Type} (key : α → String) :
    ∀ (ks : List String) (l : List α), ks.Nodup → (∀ a ∈ l, key a ∈ ks) →
      (ks.flatMap (fun k => l.filter (fun a => key a == k))).Perm l := by
  intro ks
  induction ks with
  | nil =>
    intro l _ hcov
    have : l = [] := List.eq_nil_iff_forall_not_mem.mpr
      (fun a ha => (List.not_mem_nil _) (hcov a ha))
    subst this
    exact List.Perm.refl _
  | cons k rest ih =>
    intro l hnd hcov
    simp only [List.flatMap_cons]
    rw [flatMap_filter_shift key k l rest (List.nodup_cons.mp hnd).1]
    have hcov2 : ∀ a ∈ l.filter (fun a => !(key a == k)), key a ∈ rest := by
      intro a ha
      have hmem := List.mem_filter.mp ha
      have hne : key a ≠ k := by simpa using hmem.2
      exact (List.mem_cons.mp (hcov a hmem.1)).resolve_left hne
    have h2 := ih (l.filter (fun a => !(key a == k))) (List.nodup_cons.mp hnd).2 hcov2
    exact (List.Perm.append_left _ h2).trans (List.filter_append_perm _ l)

theorem compute_hexagon_score_bounds (g : Graph) (ids : List String) :
    0 ≤ compute_hexagon_score g ids ∧ compute_hexagon_score g ids ≤ 1 := by
  unfold compute_hexagon_score
  simp only [run_rule_analysis]
  split
  · constructor
    · apply div_nonneg _ (by norm_num)
      exact_mod_cast score_project_nonneg _
    · rw [div_le_one (by norm_num)]
      exact_mod_cast score_project_le_100 _
  · norm_num

theorem buildRelations_not_seen (ctxs : List BoundedContext)
    (cnt : String × String → Nat) :
    ∀ (keys : List (String × String)) (seen : List (String × String)),
      (∀ a b, (a, b) ∈ seen → (b, a) ∈ seen) →
      ∀ r ∈ buildRelations ctxs cnt keys seen,
        (r.source_bc_id, r.target_bc_id) ∉ seen ∧
        (r.target_bc_id, r.source_bc_id) ∉ seen := by
  intro keys
  induction keys with
  | nil => intro seen hsym r hr; simp [buildRelations] at hr
  | cons kt rest ih =>
    intro seen hsym r hr
    obtain ⟨src, tgt⟩ := kt
    unfold buildRelations at hr
    by_cases hseen : (src, tgt) ∈ seen
    · rw [if_pos hseen] at hr
      exact ih seen hsym r hr
    · rw [if_neg hseen] at hr
      rcases List.mem_cons.mp hr with heq | htail
      · subst heq
        exact ⟨hseen, fun h => hseen (hsym tgt src h)⟩
      · have hsym2 : ∀ a b, (a, b) ∈ (src, tgt) :: (tgt, src) :: seen →
            (b, a) ∈ (src, tgt) :: (tgt, src) :: seen := by
          intro a b hab
          rcases List.mem_cons.mp hab with h1 | h1
          · rw [Prod.mk.injEq] at h1
            exact List.mem_cons_of_mem _ (h1.1 ▸ h1.2 ▸ List.mem_cons_self _ _)
          · rcases List.mem_cons.mp h1 with h2 | h2
            · rw [Prod.mk.injEq] at h2
              exact h2.1 ▸ h2.2 ▸ List.mem_cons_self _ _
            · exact List.mem_cons_of_mem _ (List.mem_cons_of_mem _ (hsym a b h2))
        have hin := ih ((src, tgt) :: (tgt, src) :: seen) hsym2 r htail
        exact ⟨fun h => hin.1 (List.mem_cons_of_mem _ (List.mem_cons_of_mem _ h)),
          fun h => hin.2 (List.mem_cons_of_mem _ (List.mem_cons_of_mem _ h))⟩

theorem buildRelations_pairwise (ctxs : List BoundedContext)
    (cnt : String × String → Nat) :
    ∀ (keys : List (String × String)) (seen : List (String × String)),
      (∀ a b, (a, b) ∈ seen → (b, a) ∈ seen) →
      (buildRelations ctxs cnt keys seen).Pairwise (fun r1 r2 =>
        ¬ ((r1.source_bc_id = r2.source_bc_id ∧ r1.target_bc_id = r2.target_bc_id) ∨
           (r1.source_bc_id = r2.target_bc_id ∧ r1.target_bc_id = r2.source_bc_id))) := by
  intro keys
  induction keys with
  | nil => intro seen _; simp [buildRelations]
  | cons kt rest ih =>
    intro seen hsym
    obtain ⟨src, tgt⟩ := kt
    unfold buildRelations
    by_cases hseen : (src, tgt) ∈ seen
    · rw [if_pos hseen]
      exact ih seen hsym
    · rw [if_neg hseen]
      have hsym2 : ∀ a b, (a, b) ∈ (src, tgt) :: (tgt, src) :: seen →
          (b, a) ∈ (src, tgt) :: (tgt, src) :: seen := by
        intro a b hab
        rcases List.mem_cons.mp hab with h1 | h1
        · rw [Prod.mk.injEq] at h1
          exact List.mem_cons_of_mem _ (h1.1 ▸ h1.2 ▸ List.mem_cons_self _ _)
        · rcases List.mem_cons.mp h1 with h2 | h2
          · rw [Prod.mk.injEq] at h2
            exact h2.1 ▸ h2.2 ▸ List.mem_cons_self _ _
          · exact List.mem_cons_of_mem _ (List.mem_cons_of_mem _ (hsym a b h2))
      refine List.Pairwise.cons ?_ (ih ((src, tgt) :: (tgt, src) :: seen) hsym2)
      intro r hr hcon
      have hns := buildRelations_not_seen ctxs cnt rest
        ((src, tgt) :: (tgt, src) :: seen) hsym2 r hr
      rcases hcon with ⟨h1, h2⟩ | ⟨h1, h2⟩
      · exact hns.1 (h1 ▸ h2 ▸ List.mem_cons_self _ _)
      · exact hns.1 (h1 ▸ h2 ▸ List.mem_cons_of_mem _ (List.mem_cons_self _ _))

/-- C8: every component of the graph belongs to exactly one bounded context
(the contexts' component-id lists are jointly a permutation of the graph's
component ids); every context's `hexagon_score` lies in [0, 1]; and the
emitted relations contain at most one record per unordered context pair. -/
theorem c8_bounded_context_invariants (g : Graph) :
    ((analyze_bounded_contexts g).contexts.flatMap BoundedContext.component_ids).Perm
      (g.components.map Component.id) ∧
    (∀ bc ∈ (analyze_bounded_contexts g).contexts,
      0 ≤ bc.hexagon_score ∧ bc.hexagon_score ≤ 1) ∧
    (analyze_bounded_contexts g).relations.Pairwise (fun r1 r2 =>
      ¬ ((r1.source_bc_id = r2.source_bc_id ∧ r1.target_bc_id = r2.target_bc_id) ∨
         (r1.source_bc_id = r2.target_bc_id ∧ r1.target_bc_id = r2.source_bc_id))) := by
  refine ⟨?_, ?_, ?_⟩
  · show ((sortStrings (dedupFirst (g.components.map (fun c => extract_bc_prefix c.package)))).enum.map
        _ |>.flatMap BoundedContext.component_ids).Perm (g.components.map Component.id)
    rw [List.flatMap_map]
    have hstep : (sortStrings (dedupFirst (g.components.map
          (fun c => extract_bc_prefix c.package)))).enum.flatMap
        (fun p => (g.components.filter
          (fun c => extract_bc_prefix c.package == p.2)).map Component.id) =
        (sortStrings (dedupFirst (g.components.map
          (fun c => extract_bc_prefix c.package)))).flatMap
        (fun pref => (g.components.filter
          (fun c => extract_bc_prefix c.package == pref)).map Component.id) := by
      conv_rhs =>
        rw [← List.enum_map_snd (sortStrings (dedupFirst (g.components.map
          (fun c => extract_bc_prefix c.package)))), List.flatMap_map]
    rw [hstep, ← List.map_flatMap]
    apply List.Perm.map
    apply flatMap_filter_key_perm (fun c : Component => extract_bc_prefix c.package)
    · exact ((sortStrings_perm _).nodup_iff).mpr (nodup_dedupFirst _)
    · intro c hc
      rw [(sortStrings_perm _).mem_iff, mem_dedupFirst]
      exact List.mem_map_of_mem _ hc
  · intro bc hbc
    have hbc2 := List.mem_map.mp hbc
    obtain ⟨p, _, hpe⟩ := hbc2
    have : bc.hexagon_score = compute_hexagon_score g
        ((g.components.filter (fun c => extract_bc_prefix c.package == p.2)).map
          Component.id) := by
      rw [← hpe]
    rw [this]
    exact compute_hexagon_score_bounds g _
  · exact buildRelations_pairwise _ _ _ [] (by intro a b h; simp at h)

/-- The only component of the C8 witness graph. -/
def bcWComp : Component :=
  { id := "w1", name := "Order", path := "", package := "com.shop.order", layer := "domain" }

/-- One-component graph for the C8 witness. -/
def gBcW : Graph := { components := [bcWComp], dependencies := [] }

/-- The single bounded context produced for `gBcW`. -/
def bcWRecord : BoundedContext :=
  { id := "bc_0"
    name := "com.shop.order"
    package_prefixes := ["com.shop.order"]
    component_ids := ["w1"]
    layers_present := ["domain"]
    is_pure_hexagon := decide (compute_hexagon_score gBcW ["w1"] ≥ (8 : Rat) / 10)
    hexagon_score := compute_hexagon_score gBcW ["w1"] }

/-- C8 witness: the invariants instantiated on the one-component graph. -/
theorem c8_bounded_context_witness :
    ((analyze_bounded_contexts gBcW).contexts.flatMap BoundedContext.component_ids).Perm
      (gBcW.components.map Component.id) ∧
    (0 ≤ bcWRecord.hexagon_score ∧ bcWRecord.hexagon_score ≤ 1) ∧
    (analyze_bounded_contexts gBcW).relations.Pairwise (fun r1 r2 =>
      ¬ ((r1.source_bc_id = r2.source_bc_id ∧ r1.target_bc_id = r2.target_bc_id) ∨
         (r1.source_bc_id = r2.target_bc_id ∧ r1.target_bc_id = r2.source_bc_id))) := by
  have h := c8_bounded_context_invariants gBcW
  have hc : (analyze_bounded_contexts gBcW).contexts = [bcWRecord] := rfl
  exact ⟨h.1, h.2.1 bcWRecord (hc ▸ List.mem_singleton.mpr rfl), h.2.2⟩

end ArchAssistant
